import Mathlib

/-!
Shallow embedding of `src/2cca.c` (two-cent certification authority).

The program issues X.509 certificates for five profiles (root CA, sub CA,
server, client, www), and maintains one certificate revocation list per
authority.  The embedding models the pure decision logic of the source:

* OpenSSL objects (`X509`, `X509_CRL`, `EVP_PKEY`) become Lean structures;
  key pairs are abstract identifiers (`Nat`), where a signature made with
  key `k` verifies exactly against the public key of the same identifier.
* File-system effects are passed in explicitly (`BuildEnv`, `RevokeEnv`
  record which files exist and what they parse to) and returned explicitly
  (the list of files written, the resulting CRL file content).
* Machine integers are `Nat`/`Int`; serial numbers are byte lists.
-/

namespace TwoCCA

/-- Mirrors the constant `RSA_KEYSZ` (2048) of `2cca.c`. -/
def RSA_KEYSZ : Nat := 2048

/-- Mirrors the constant `FIELD_SZ` (128): capacity of every fixed string field. -/
def FIELD_SZ : Nat := 128

/-- Mirrors the constant `SERIAL_SZ` (16 bytes). -/
def SERIAL_SZ : Nat := 16

/-- Mirrors the constant `MAX_SAN` (8): intended maximum number of SAN entries. -/
def MAX_SAN : Nat := 8

/-- Mirrors the constant `BIG_FIELD` = `MAX_SAN*(FIELD_SZ+1)`: size of the SAN buffer. -/
def BIG_FIELD : Nat := MAX_SAN * (FIELD_SZ + 1)

/-- The profile enum of `struct _certinfo_` in `2cca.c` (including `PROFILE_UNKNOWN`). -/
inductive Profile where
  | unknown
  | root_ca
  | sub_ca
  | server
  | client
  | www
  deriving DecidableEq, Repr

/-- The X.509 extension NIDs that appear in `2cca.c`, plus `ext_key_usage`,
which appears only in the specification's templates.  The source passes
`NID_anyExtendedKeyUsage` (the any-EKU OID) where the spec's table speaks of
the `extendedKeyUsage` extension; the embedding keeps the two distinct. -/
inductive ExtNid where
  | basic_constraints
  | key_usage
  | subject_key_identifier
  | authority_key_identifier
  | subject_alt_name
  | netscape_cert_type
  | anyExtendedKeyUsage
  | ext_key_usage
  deriving DecidableEq, Repr

/-- One certificate extension as configured by `set_extension`: the NID and the
OpenSSL configuration string passed to `X509V3_EXT_conf_nid`. -/
structure Ext where
  nid : ExtNid
  value : String
  deriving DecidableEq, Repr

/-- A distinguished name; empty string means the field is absent
(the C code tests presence with `field[0]`). -/
structure DN where
  c : String
  o : String
  cn : String
  ou : String
  l : String
  st : String
  deriving DecidableEq, Repr

/-- An X.509 certificate as assembled by `build_identity`.  `pubkey` is the
abstract identifier of the subject key pair, `sigKey` the identifier of the
key pair whose private half produced the signature, `sigAlg` the digest used. -/
structure Cert where
  serial : List Nat
  notBefore : Int
  notAfter : Int
  subject : DN
  issuer : DN
  pubkey : Nat
  extensions : List Ext
  sigKey : Nat
  sigAlg : String
  deriving DecidableEq, Repr

/-- The `identity` struct of `2cca.c`: a private key plus a certificate. -/
structure Identity where
  key : Nat
  cert : Cert
  deriving DecidableEq, Repr

/-- The global `certinfo` configuration struct of `2cca.c`. -/
structure CertInfo where
  o : String
  ou : String
  cn : String
  c : String
  days : Int
  l : String
  st : String
  san : String
  profile : Profile
  signing_ca : String
  rsa_keysz : Int
  ec_name : String
  deriving DecidableEq, Repr

/-- Mirrors `set_serial128`: 16 bytes are drawn from `/dev/urandom` (passed in
as `randomBytes`), then byte 0 is overwritten with `0x2c` and byte 1 with
`0xca` (the fixed product tag). -/
def set_serial128 (randomBytes : List Nat) : List Nat :=
  (randomBytes.set 0 0x2c).set 1 0xca

/-- Mirrors `X509_check_private_key`: with abstract key identifiers, a
certificate matches a private key exactly when the identifiers coincide. -/
def check_private_key (c : Cert) (k : Nat) : Bool :=
  c.pubkey == k

/-- Signature verification: a certificate verifies against a public key
exactly when its signature was produced by the same abstract key pair. -/
def verify (c : Cert) (pub : Nat) : Bool :=
  c.sigKey == pub

/-- Mirrors `load_ca`: the CA certificate file and key file are read (given
here as `Option`s: `none` models a missing or unreadable file) and the pair is
rejected when `X509_check_private_key` fails. -/
def load_ca (crt : Option Cert) (key : Option Nat) : Option Identity :=
  match crt, key with
  | some c, some k => if check_private_key c k then some { key := k, cert := c } else none
  | _, _ => none

/-- The OU label that `build_identity`'s first `switch` copies into
`certinfo.ou`; `none` models the `default:` abort for `PROFILE_UNKNOWN`. -/
def profileOu : Profile → Option String
  | .root_ca => some "Root"
  | .sub_ca => some "Sub"
  | .server => some "Server"
  | .client => some "Client"
  | .www => some "Server"
  | .unknown => none

/-- The `subjectAltName` extension added by the leaf-profile branches when
`certinfo.san[0]` is non-zero. -/
def sanExt (san : String) : List Ext :=
  if san ≠ "" then [⟨.subject_alt_name, san⟩] else []

/-- The extension sets of `build_identity`'s second `switch` (lines 262-317 of
`2cca.c`), one arm per profile, in source order. -/
def profileExtensions (p : Profile) (san : String) : List Ext :=
  match p with
  | .root_ca =>
      [⟨.basic_constraints, "critical,CA:TRUE"⟩,
       ⟨.key_usage, "critical,keyCertSign,cRLSign"⟩,
       ⟨.subject_key_identifier, "hash"⟩,
       ⟨.authority_key_identifier, "keyid:always"⟩]
  | .sub_ca =>
      [⟨.basic_constraints, "critical,CA:TRUE"⟩,
       ⟨.key_usage, "critical,keyCertSign,cRLSign"⟩,
       ⟨.subject_key_identifier, "hash"⟩,
       ⟨.authority_key_identifier, "keyid:always"⟩]
  | .client =>
      sanExt san ++
      [⟨.basic_constraints, "CA:FALSE"⟩,
       ⟨.anyExtendedKeyUsage, "clientAuth"⟩,
       ⟨.key_usage, "digitalSignature"⟩,
       ⟨.subject_key_identifier, "hash"⟩,
       ⟨.authority_key_identifier, "issuer:always,keyid:always"⟩]
  | .server =>
      sanExt san ++
      [⟨.basic_constraints, "CA:FALSE"⟩,
       ⟨.netscape_cert_type, "server"⟩,
       ⟨.anyExtendedKeyUsage, "serverAuth"⟩,
       ⟨.key_usage, "digitalSignature,keyEncipherment"⟩,
       ⟨.subject_key_identifier, "hash"⟩,
       ⟨.authority_key_identifier, "issuer:always,keyid:always"⟩]
  | .www =>
      sanExt san ++
      [⟨.basic_constraints, "CA:FALSE"⟩,
       ⟨.netscape_cert_type, "server"⟩,
       ⟨.anyExtendedKeyUsage, "serverAuth,clientAuth"⟩,
       ⟨.key_usage, "digitalSignature,keyEncipherment"⟩,
       ⟨.subject_key_identifier, "hash"⟩,
       ⟨.authority_key_identifier, "issuer:always,keyid:always"⟩]
  | .unknown => []

/-- The fatal errors of `build_identity` (each is an early `return -1` with a
diagnostic on stderr). -/
inductive BuildError where
  | identityAlreadyExists
  | unknownProfile
  | unsupportedKeyForProfile
  | caNotFound
  | unknownCurve
  deriving DecidableEq, Repr

/-- External state consumed by `build_identity`: whether `cn.crt` / `cn.key`
already exist, what the signing CA's files contain, whether the requested
curve name is known to OpenSSL, the fresh key pair produced by the key
generator, the bytes read from `/dev/urandom`, and the current time. -/
structure BuildEnv where
  crtExists : Bool
  keyExists : Bool
  caCrt : Option Cert
  caKey : Option Nat
  knownCurve : Bool
  newKey : Nat
  randomBytes : List Nat
  now : Int
  deriving DecidableEq, Repr

/-- Certificate assembly in `build_identity` after the error checks: subject
name from `certinfo` (with the profile-derived OU and the possibly inherited
O), validity window `[now, now + days*24*60*60]`, extensions per profile, and
the self-signed versus chain-signed issuer and signature (`EVP_sha256` in
both branches). -/
def mkCert (ci : CertInfo) (ou : String) (o : String) (pkey : Nat)
    (serial : List Nat) (now : Int) (signer : Option Identity) : Cert :=
  let subject : DN := { c := ci.c, o := o, cn := ci.cn, ou := ou, l := ci.l, st := ci.st }
  { serial := serial
    notBefore := now
    notAfter := now + ci.days * (24 * 60 * 60)
    subject := subject
    issuer :=
      match signer with
      | none => subject
      | some ca => ca.cert.subject
    pubkey := pkey
    extensions := profileExtensions ci.profile ci.san
    sigKey :=
      match signer with
      | none => pkey
      | some ca => ca.key
    sigAlg := "sha256" }

/-- Mirrors `build_identity` (lines 153-347 of `2cca.c`), in source order:
existence check on `cn.crt` then `cn.key`; OU from the profile switch
(abort on unknown profile); abort when an EC key is requested for a
non-client profile; for non-root profiles load the signing CA (abort on
failure) and inherit its O field; generate the key pair (abort on unknown
curve); then assemble, sign, and write `cn.key` and `cn.crt`.  The success
payload carries the certificate and the list of files written; every error
path writes nothing. -/
def build_identity (ci : CertInfo) (env : BuildEnv) :
    Except BuildError (Cert × List String) :=
  if env.crtExists then .error .identityAlreadyExists
  else if env.keyExists then .error .identityAlreadyExists
  else
    match profileOu ci.profile with
    | none => .error .unknownProfile
    | some ou =>
      if ci.ec_name ≠ "" ∧ ci.profile ≠ .client then .error .unsupportedKeyForProfile
      else if ci.profile = .root_ca then
        .ok (mkCert ci ou ci.o env.newKey (set_serial128 env.randomBytes) env.now none,
             [ci.cn ++ ".key", ci.cn ++ ".crt"])
      else
        match load_ca env.caCrt env.caKey with
        | none => .error .caNotFound
        | some ca =>
          if ci.ec_name ≠ "" ∧ env.knownCurve = false then .error .unknownCurve
          else
            .ok (mkCert ci ou ca.cert.subject.o env.newKey (set_serial128 env.randomBytes)
                   env.now (some ca),
                 [ci.cn ++ ".key", ci.cn ++ ".crt"])

/-- Serial bytes interpreted as a number (big endian), the order used when the
CRL is sorted by serial. -/
def bytesToNat (bs : List Nat) : Nat :=
  bs.foldl (fun a b => a * 256 + b) 0

/-- One `X509_REVOKED` entry: serial, revocation date, reason code
(0 = `CRL_REASON_UNSPECIFIED`). -/
structure CRLEntry where
  serial : Nat
  revocationDate : Int
  reason : Nat
  deriving DecidableEq, Repr

/-- An `X509_CRL`: version, the `crlNumber` extension, the validity window,
issuer, revoked entries, and the key that signed it (`none` = unsigned). -/
structure CRL where
  version : Nat
  number : Nat
  lastUpdate : Int
  nextUpdate : Int
  issuer : DN
  entries : List CRLEntry
  signedWith : Option Nat
  deriving DecidableEq, Repr

/-- A DN with every field absent. -/
def emptyDN : DN :=
  { c := "", o := "", cn := "", ou := "", l := "", st := "" }

/-- Insertion into a serial-sorted entry list (helper for `sortEntries`). -/
def insertEntry (e : CRLEntry) : List CRLEntry → List CRLEntry
  | [] => [e]
  | x :: xs => if e.serial ≤ x.serial then e :: x :: xs else x :: insertEntry e xs

/-- Mirrors `X509_CRL_sort`: the revoked entries are sorted ascending by
serial number. -/
def sortEntries : List CRLEntry → List CRLEntry
  | [] => []
  | x :: xs => insertEntry x (sortEntries xs)

/-- The entry list is in ascending serial order. -/
def sortedBySerial (l : List CRLEntry) : Prop :=
  l.Pairwise (fun a b => a.serial ≤ b.serial)

/-- Occurrences of a given serial among the revoked entries. -/
def countSerial (s : Nat) (l : List CRLEntry) : Nat :=
  l.countP (fun e => e.serial == s)

/-- Ways `revoke_cert` can end.  `crash` models the source dereferencing the
NULL result of a failed `PEM_read_X509` (`X509_get_serialNumber(cert)` with
`cert == NULL`): the process dies before the CRL is read or written. -/
inductive RevokeOutcome where
  | certNotFound
  | crash
  | caNotFound
  | writeFailed
  | ok
  deriving DecidableEq, Repr

/-- External state consumed by `revoke_cert`: the target certificate file
(`none` = missing, `some none` = present but unparsable, `some (some c)` =
parses to `c`), the authority's current CRL file, the authority's files for
`load_ca`, whether the CRL file can be opened for writing, and the time. -/
structure RevokeEnv where
  certFile : Option (Option Cert)
  existingCrl : Option CRL
  caCrt : Option Cert
  caKey : Option Nat
  writeOk : Bool
  now : Int
  deriving DecidableEq, Repr

/-- The CRL before the new entry is attached: a fresh CRL with version 1 and
`crlNumber` 1 when no CRL exists, otherwise the loaded CRL with its
`crlNumber` incremented by one (lines 443-459 of `2cca.c`). -/
def crlBase (existing : Option CRL) : CRL :=
  match existing with
  | none =>
    { version := 1, number := 1, lastUpdate := 0, nextUpdate := 0,
      issuer := emptyDN, entries := [], signedWith := none }
  | some old => { old with number := old.number + 1 }

/-- The CRL that `revoke_cert` signs and writes on success: base CRL with
`lastUpdate = now`, `nextUpdate = now + 365 days`, the new entry
(serial of the revoked certificate, date `now`, reason unspecified) appended
and all entries re-sorted, issuer set to the CA's subject, signed with the
CA's key. -/
def newCrl (env : RevokeEnv) (cert : Cert) (ca : Identity) : CRL :=
  { crlBase env.existingCrl with
    lastUpdate := env.now
    nextUpdate := env.now + 365 * 24 * 60 * 60
    entries := sortEntries ((crlBase env.existingCrl).entries ++
      [{ serial := bytesToNat cert.serial, revocationDate := env.now, reason := 0 }])
    issuer := ca.cert.subject
    signedWith := some ca.key }

/-- Mirrors `revoke_cert` (lines 408-502 of `2cca.c`).  The result pairs the
outcome with the content of the authority's CRL file afterwards.  In source
order: open and parse `name.crt` (missing file returns with the CRL file
untouched; an unparsable file crashes on a NULL dereference, likewise before
any write); build the new CRL in memory; load the CA (failure returns with
the CRL file untouched); sign; only then open the CRL file for writing. -/
def revoke_cert (env : RevokeEnv) : RevokeOutcome × Option CRL :=
  match env.certFile with
  | none => (.certNotFound, env.existingCrl)
  | some none => (.crash, env.existingCrl)
  | some (some cert) =>
    match load_ca env.caCrt env.caKey with
    | none => (.caNotFound, env.existingCrl)
    | some ca =>
      if env.writeOk then (.ok, some (newCrl env cert ca))
      else (.writeFailed, env.existingCrl)

/-- Digit-sequence value, helper for `atoi`. -/
def digitsVal (cs : List Char) : Int :=
  (cs.takeWhile Char.isDigit).foldl (fun a c => a * 10 + ((c.toNat : Int) - 48)) 0

/-- The C `atoi`: optional leading whitespace, optional sign, leading digits. -/
def atoi (s : String) : Int :=
  match s.data.dropWhile (fun c => c == ' ' || c == '\t' || c == '\n' || c == '\r') with
  | '-' :: rest => -(digitsVal rest)
  | '+' :: rest => digitsVal rest
  | cs => digitsVal cs

/-- A typed SAN entry, as produced by a `dns=` or `email=` argument. -/
inductive SanEntry where
  | dns (v : String)
  | email (v : String)
  deriving DecidableEq, Repr

/-- Rendering of one SAN entry (`sprintf(tmp, "DNS:%s", val)` respectively
`sprintf(tmp, "email:%s", val)` in `parse_cmd_line`). -/
def renderEntry : SanEntry → String
  | .dns v => "DNS:" ++ v
  | .email v => "email:" ++ v

/-- The separator `parse_cmd_line` writes before a subsequent entry: a plain
comma before a `dns` entry, a comma plus newline before an `email` entry. -/
def sepFor : SanEntry → String
  | .dns _ => ","
  | .email _ => ",\n"

/-- Tail of the SAN rendering: separator then entry, for each entry after the
first. -/
def joinSanAux : List SanEntry → String
  | [] => ""
  | e :: es => sepFor e ++ renderEntry e ++ joinSanAux es

/-- The SAN string accumulated for a list of entries: first entry rendered
bare, each later entry preceded by its separator. -/
def joinSan : List SanEntry → String
  | [] => ""
  | e :: es => renderEntry e ++ joinSanAux es

/-- Modelled from the spec: entries "joined with commas (a single comma
character between consecutive entries)" — the rendering the claim asserts. -/
def joinWithComma : List SanEntry → String
  | [] => ""
  | [e] => renderEntry e
  | e :: es => renderEntry e ++ "," ++ joinWithComma es

/-- Which SAN entry (if any) a `key=value` argument contributes. -/
def sanKeyEntry (k v : String) : Option SanEntry :=
  if k = "email" then some (.email v)
  else if k = "dns" then some (.dns v)
  else none

/-- The SAN entries contributed by an argument list, in order. -/
def sanEntries (args : List (String × String)) : List SanEntry :=
  args.filterMap (fun kv => sanKeyEntry kv.1 kv.2)

/-- The mutable state of `parse_cmd_line`'s loop: the `certinfo` struct plus
the local `san` buffer and entry counter `ns`. -/
structure ParseState where
  ci : CertInfo
  san : String
  ns : Nat
  deriving DecidableEq, Repr

/-- One iteration of `parse_cmd_line`'s `strcmp` chain for an argument that
matched `key=value`; `none` models the `return -1` on an unsupported key. -/
def applyKey (ps : ParseState) (k v : String) : Option ParseState :=
  if k = "rsa" then some { ps with ci := { ps.ci with rsa_keysz := atoi v } }
  else if k = "ec" then some { ps with ci := { ps.ci with ec_name := v } }
  else if k = "O" then some { ps with ci := { ps.ci with o := v } }
  else if k = "C" then some { ps with ci := { ps.ci with c := v } }
  else if k = "ST" then some { ps with ci := { ps.ci with st := v } }
  else if k = "CN" then some { ps with ci := { ps.ci with cn := v } }
  else if k = "L" then some { ps with ci := { ps.ci with l := v } }
  else if k = "email" then
    some { ps with
      san := if ps.ns = 0 then "email:" ++ v else ps.san ++ ",\n" ++ ("email:" ++ v),
      ns := ps.ns + 1 }
  else if k = "dns" then
    some { ps with
      san := if ps.ns = 0 then "DNS:" ++ v else ps.san ++ "," ++ ("DNS:" ++ v),
      ns := ps.ns + 1 }
  else if k = "days" then some { ps with ci := { ps.ci with days := atoi v } }
  else if k = "ca" then some { ps with ci := { ps.ci with signing_ca := v } }
  else none

/-- The loop of `parse_cmd_line` over the `key=value` arguments (command-line
tokenizing itself is out of scope; arguments not of the form `key=value` are
skipped by `sscanf` and never reach this loop). -/
def parseGo : List (String × String) → ParseState → Option ParseState
  | [], ps => some ps
  | (k, v) :: rest, ps =>
    match applyKey ps k v with
    | none => none
    | some ps2 => parseGo rest ps2

/-- The loop state after `parse_cmd_line`, starting from a given `certinfo`
with an empty `san` buffer and `ns = 0`. -/
def parseState (args : List (String × String)) (ci0 : CertInfo) : Option ParseState :=
  parseGo args { ci := ci0, san := "", ns := 0 }

/-- Mirrors `parse_cmd_line`: run the loop, then copy the accumulated SAN
buffer into `certinfo.san` when at least one entry was seen. -/
def parse_cmd_line (args : List (String × String)) (ci0 : CertInfo) : Option CertInfo :=
  match parseState args ci0 with
  | none => none
  | some ps => some (if ps.ns > 0 then { ps.ci with san := ps.san } else ps.ci)

/-- The `certinfo` defaults set in `main` before parsing: O = "Home",
days = 3650, signing CA = "root", RSA-2048. -/
def initCertinfo : CertInfo :=
  { o := "Home", ou := "", cn := "", c := "", days := 3650, l := "", st := "",
    san := "", profile := .unknown, signing_ca := "root", rsa_keysz := 2048, ec_name := "" }

/-- Modelled from the spec: the extension template of the Profile Resolver
table for the CA profiles (basicConstraints critical CA:true, keyUsage
critical keyCertSign+cRLSign, subjectKeyIdentifier, authorityKeyIdentifier). -/
def specCaExts : List Ext :=
  [⟨.basic_constraints, "critical,CA:TRUE"⟩,
   ⟨.key_usage, "critical,keyCertSign,cRLSign"⟩,
   ⟨.subject_key_identifier, "hash"⟩,
   ⟨.authority_key_identifier, "keyid:always"⟩]

/-- Modelled from the spec: the extension NIDs of the Server template
(basicConstraints, keyUsage, extendedKeyUsage, subjectKeyIdentifier,
authorityKeyIdentifier — and nothing else). -/
def specServerExtNids : List ExtNid :=
  [.basic_constraints, .key_usage, .ext_key_usage,
   .subject_key_identifier, .authority_key_identifier]

/-- The extension template the code actually emits, per profile: the CA
profiles match the spec's table; the leaf profiles prepend `subjectAltName`
when a SAN is present, request the EKU values under the
`anyExtendedKeyUsage` NID, and (for Server and WebServer) additionally carry
a Netscape certificate-type extension with value `server`. -/
def amendedTemplate (p : Profile) (san : String) : List Ext :=
  match p with
  | .unknown => []
  | .root_ca => specCaExts
  | .sub_ca => specCaExts
  | .client =>
      sanExt san ++
      [⟨.basic_constraints, "CA:FALSE"⟩,
       ⟨.anyExtendedKeyUsage, "clientAuth"⟩,
       ⟨.key_usage, "digitalSignature"⟩,
       ⟨.subject_key_identifier, "hash"⟩,
       ⟨.authority_key_identifier, "issuer:always,keyid:always"⟩]
  | .server =>
      sanExt san ++
      [⟨.basic_constraints, "CA:FALSE"⟩,
       ⟨.netscape_cert_type, "server"⟩,
       ⟨.anyExtendedKeyUsage, "serverAuth"⟩,
       ⟨.key_usage, "digitalSignature,keyEncipherment"⟩,
       ⟨.subject_key_identifier, "hash"⟩,
       ⟨.authority_key_identifier, "issuer:always,keyid:always"⟩]
  | .www =>
      sanExt san ++
      [⟨.basic_constraints, "CA:FALSE"⟩,
       ⟨.netscape_cert_type, "server"⟩,
       ⟨.anyExtendedKeyUsage, "serverAuth,clientAuth"⟩,
       ⟨.key_usage, "digitalSignature,keyEncipherment"⟩,
       ⟨.subject_key_identifier, "hash"⟩,
       ⟨.authority_key_identifier, "issuer:always,keyid:always"⟩]

/-- Sample 16 bytes standing in for a `/dev/urandom` read. -/
def demoRandom : List Nat :=
  [9, 9, 9, 9, 9, 9, 9, 9, 9, 9, 9, 9, 9, 9, 9, 9]

/-- Request for a root CA named "root" (defaults plus the `root` verb). -/
def ciRoot : CertInfo :=
  { initCertinfo with cn := "root", profile := .root_ca }

/-- Clean environment for issuing the root: no name collision, no CA files. -/
def envRoot : BuildEnv :=
  { crtExists := false, keyExists := false, caCrt := none, caKey := none,
    knownCurve := true, newKey := 7, randomBytes := demoRandom, now := 1000 }

/-- The certificate `build_identity ciRoot envRoot` produces. -/
def rootCert : Cert :=
  mkCert ciRoot "Root" ciRoot.o envRoot.newKey (set_serial128 envRoot.randomBytes)
    envRoot.now none

/-- A concrete CA certificate on disk, used as signing authority. -/
def demoCaCert : Cert :=
  { serial := set_serial128 demoRandom, notBefore := 0, notAfter := 100,
    subject := { c := "", o := "Acme", cn := "root", ou := "Root", l := "", st := "" },
    issuer := { c := "", o := "Acme", cn := "root", ou := "Root", l := "", st := "" },
    pubkey := 5, extensions := profileExtensions .root_ca "",
    sigKey := 5, sigAlg := "sha256" }

/-- The identity `load_ca` assembles from `demoCaCert` and key 5. -/
def demoCa : Identity :=
  { key := 5, cert := demoCaCert }

/-- Request for a server certificate named "www1". -/
def ciServer : CertInfo :=
  { initCertinfo with cn := "www1", profile := .server }

/-- Environment for issuing the server: the signing CA's files are present
and consistent. -/
def envServer : BuildEnv :=
  { crtExists := false, keyExists := false, caCrt := some demoCaCert, caKey := some 5,
    knownCurve := true, newKey := 8, randomBytes := demoRandom, now := 2000 }

/-- The certificate `build_identity ciServer envServer` produces. -/
def serverCert : Cert :=
  mkCert ciServer "Server" demoCaCert.subject.o envServer.newKey
    (set_serial128 envServer.randomBytes) envServer.now (some demoCa)

/-- Root-CA request that also carries a non-empty SAN list. -/
def ciRootSan : CertInfo :=
  { initCertinfo with cn := "root2", profile := .root_ca, san := "DNS:example.com" }

/-- The certificate `build_identity ciRootSan envRoot` produces. -/
def rootSanCert : Cert :=
  mkCert ciRootSan "Root" ciRootSan.o envRoot.newKey (set_serial128 envRoot.randomBytes)
    envRoot.now none

/-- A leaf certificate on disk to be revoked; its serial bytes [1, 2] read as
the number 258. -/
def revCert : Cert :=
  { serial := [1, 2], notBefore := 0, notAfter := 10, subject := emptyDN,
    issuer := emptyDN, pubkey := 9, extensions := [], sigKey := 5, sigAlg := "sha256" }

/-- An existing CRL with sequence number 3 and two entries. -/
def oldCrl : CRL :=
  { version := 1, number := 3, lastUpdate := 0, nextUpdate := 0, issuer := emptyDN,
    entries := [{ serial := 100, revocationDate := 0, reason := 0 },
                { serial := 300, revocationDate := 0, reason := 0 }],
    signedWith := some 5 }

/-- Revocation environment: target parses, CRL exists, CA loads, write works. -/
def envRevoke : RevokeEnv :=
  { certFile := some (some revCert), existingCrl := some oldCrl,
    caCrt := some demoCaCert, caKey := some 5, writeOk := true, now := 1000 }

/-- The CRL file content after `revoke_cert envRevoke`. -/
def crlAfter : CRL :=
  { version := 1, number := 4, lastUpdate := 1000, nextUpdate := 1000 + 365 * 24 * 60 * 60,
    issuer := demoCaCert.subject,
    entries := [{ serial := 100, revocationDate := 0, reason := 0 },
                { serial := 258, revocationDate := 1000, reason := 0 },
                { serial := 300, revocationDate := 0, reason := 0 }],
    signedWith := some 5 }

/-- Revocation environment whose CA key file is missing. -/
def envRevokeNoKey : RevokeEnv :=
  { envRevoke with caKey := none }

/-- Revocation environment whose target certificate file is missing. -/
def envRevokeNoCert : RevokeEnv :=
  { envRevoke with certFile := none }

/-- Environment in which `cn.crt` already exists. -/
def envExists : BuildEnv :=
  { envRoot with crtExists := true }

/-- A successfully loaded CA has matching certificate and private key
(`load_ca` runs `X509_check_private_key`). -/
theorem load_ca_pubkey (a : Option Cert) (b : Option Nat) (ca : Identity)
    (h : load_ca a b = some ca) : ca.cert.pubkey = ca.key := by
  unfold load_ca at h
  split at h
  · rename_i c k
    split at h
    · rename_i hck
      cases h
      simpa [check_private_key] using hck
    · exact absurd h (by simp)
  · exact absurd h (by simp)

/-- A successful `build_identity` run resolved the profile's OU, wrote exactly
`cn.key` and `cn.crt`, and produced either the self-signed root certificate
or a certificate chained to the loaded CA. -/
theorem build_identity_ok_cases (ci : CertInfo) (env : BuildEnv) (cert : Cert)
    (ws : List String) (h : build_identity ci env = .ok (cert, ws)) :
    ∃ ou, profileOu ci.profile = some ou ∧ ws = [ci.cn ++ ".key", ci.cn ++ ".crt"] ∧
      ((ci.profile = .root_ca ∧
          cert = mkCert ci ou ci.o env.newKey (set_serial128 env.randomBytes) env.now none) ∨
       (ci.profile ≠ .root_ca ∧ ∃ ca, load_ca env.caCrt env.caKey = some ca ∧
          cert = mkCert ci ou ca.cert.subject.o env.newKey (set_serial128 env.randomBytes)
                   env.now (some ca))) := by
  unfold build_identity at h
  split at h
  · exact absurd h (by simp)
  split at h
  · exact absurd h (by simp)
  split at h
  · exact absurd h (by simp)
  rename_i ou hou
  split at h
  · exact absurd h (by simp)
  split at h
  · rename_i hroot
    rw [Except.ok.injEq, Prod.mk.injEq] at h
    exact ⟨ou, hou, h.2.symm, Or.inl ⟨hroot, h.1.symm⟩⟩
  · rename_i hnroot
    split at h
    · exact absurd h (by simp)
    rename_i ca hca
    split at h
    · exact absurd h (by simp)
    rw [Except.ok.injEq, Prod.mk.injEq] at h
    exact ⟨ou, hou, h.2.symm, Or.inr ⟨hnroot, ca, hca, h.1.symm⟩⟩

/-- Membership in an insertion step. -/
theorem mem_insertEntry {b e : CRLEntry} {l : List CRLEntry} :
    b ∈ insertEntry e l ↔ b = e ∨ b ∈ l := by
  induction l with
  | nil => simp [insertEntry]
  | cons x xs ih =>
    rw [insertEntry]
    split
    · simp [List.mem_cons]
    · simp [List.mem_cons, ih]
      tauto

/-- Inserting is a permutation of consing. -/
theorem insertEntry_perm (e : CRLEntry) (l : List CRLEntry) :
    List.Perm (insertEntry e l) (e :: l) := by
  induction l with
  | nil => simp [insertEntry]
  | cons x xs ih =>
    rw [insertEntry]
    split
    · exact List.Perm.refl _
    · exact (ih.cons x).trans (List.Perm.swap e x xs)

/-- Sorting permutes the entries. -/
theorem sortEntries_perm (l : List CRLEntry) : List.Perm (sortEntries l) l := by
  induction l with
  | nil => simp [sortEntries]
  | cons x xs ih => exact (insertEntry_perm x (sortEntries xs)).trans (ih.cons x)

/-- Sorting preserves the number of entries. -/
theorem sortEntries_length (l : List CRLEntry) : (sortEntries l).length = l.length :=
  (sortEntries_perm l).length_eq

/-- Sorting preserves the multiplicity of every serial. -/
theorem countSerial_sortEntries (s : Nat) (l : List CRLEntry) :
    countSerial s (sortEntries l) = countSerial s l :=
  (sortEntries_perm l).countP_eq _

/-- Inserting into a sorted list keeps it sorted. -/
theorem insertEntry_sorted (e : CRLEntry) (l : List CRLEntry)
    (h : sortedBySerial l) : sortedBySerial (insertEntry e l) := by
  induction l with
  | nil => simp [insertEntry, sortedBySerial]
  | cons x xs ih =>
    rw [sortedBySerial, List.pairwise_cons] at h
    obtain ⟨hx, hxs⟩ := h
    rw [insertEntry]
    split
    · rename_i hle
      refine List.Pairwise.cons ?_ (List.Pairwise.cons hx hxs)
      intro b hb
      rcases List.mem_cons.mp hb with rfl | hb
      · exact hle
      · exact le_trans hle (hx b hb)
    · rename_i hgt
      refine List.Pairwise.cons ?_ (ih hxs)
      intro b hb
      rcases mem_insertEntry.mp hb with rfl | hb
      · exact le_of_not_le hgt
      · exact hx b hb

/-- The output of `sortEntries` is ascending by serial. -/
theorem sortEntries_sorted (l : List CRLEntry) : sortedBySerial (sortEntries l) := by
  induction l with
  | nil => simp [sortEntries, sortedBySerial]
  | cons x xs ih => exact insertEntry_sorted x _ ih

/-- Appending one entry to the rendering tail. -/
theorem joinSanAux_append (es : List SanEntry) (e : SanEntry) :
    joinSanAux (es ++ [e]) = joinSanAux es ++ sepFor e ++ renderEntry e := by
  induction es with
  | nil => simp [joinSanAux, String.empty_append, String.append_empty]
  | cons x xs ih =>
    simp only [List.cons_append, joinSanAux, List.append_eq, ih, String.append_assoc]

/-- Appending one entry to the SAN rendering: the first entry is rendered
bare, every later one is preceded by its separator. -/
theorem joinSan_append (es : List SanEntry) (e : SanEntry) :
    joinSan (es ++ [e]) =
      if es = [] then renderEntry e
      else joinSan es ++ sepFor e ++ renderEntry e := by
  cases es with
  | nil => simp [joinSan, joinSanAux, String.append_empty]
  | cons x xs =>
    simp only [List.cons_append, joinSan, joinSanAux_append, String.append_assoc,
      if_neg (List.cons_ne_nil x xs)]

/-- Effect of one loop iteration on the SAN state: the `certinfo.san` field is
never written inside the loop, non-SAN keys leave the buffer and counter
alone, and a `dns=`/`email=` key appends exactly its rendered entry. -/
theorem applyKey_spec (ps ps' : ParseState) (k v : String)
    (h : applyKey ps k v = some ps') :
    ps'.ci.san = ps.ci.san ∧
    ((sanKeyEntry k v = none ∧ ps'.san = ps.san ∧ ps'.ns = ps.ns) ∨
     (∃ e, sanKeyEntry k v = some e ∧ ps'.ns = ps.ns + 1 ∧
        ps'.san = if ps.ns = 0 then renderEntry e
                  else ps.san ++ sepFor e ++ renderEntry e)) := by
  unfold applyKey at h
  by_cases h1 : k = "rsa"
  · rw [if_pos h1] at h; cases h; subst h1; exact ⟨rfl, Or.inl ⟨rfl, rfl, rfl⟩⟩
  rw [if_neg h1] at h
  by_cases h2 : k = "ec"
  · rw [if_pos h2] at h; cases h; subst h2; exact ⟨rfl, Or.inl ⟨rfl, rfl, rfl⟩⟩
  rw [if_neg h2] at h
  by_cases h3 : k = "O"
  · rw [if_pos h3] at h; cases h; subst h3; exact ⟨rfl, Or.inl ⟨rfl, rfl, rfl⟩⟩
  rw [if_neg h3] at h
  by_cases h4 : k = "C"
  · rw [if_pos h4] at h; cases h; subst h4; exact ⟨rfl, Or.inl ⟨rfl, rfl, rfl⟩⟩
  rw [if_neg h4] at h
  by_cases h5 : k = "ST"
  · rw [if_pos h5] at h; cases h; subst h5; exact ⟨rfl, Or.inl ⟨rfl, rfl, rfl⟩⟩
  rw [if_neg h5] at h
  by_cases h6 : k = "CN"
  · rw [if_pos h6] at h; cases h; subst h6; exact ⟨rfl, Or.inl ⟨rfl, rfl, rfl⟩⟩
  rw [if_neg h6] at h
  by_cases h7 : k = "L"
  · rw [if_pos h7] at h; cases h; subst h7; exact ⟨rfl, Or.inl ⟨rfl, rfl, rfl⟩⟩
  rw [if_neg h7] at h
  by_cases h8 : k = "email"
  · rw [if_pos h8] at h; cases h; subst h8
    exact ⟨rfl, Or.inr ⟨SanEntry.email v, rfl, rfl, rfl⟩⟩
  rw [if_neg h8] at h
  by_cases h9 : k = "dns"
  · rw [if_pos h9] at h; cases h; subst h9
    exact ⟨rfl, Or.inr ⟨SanEntry.dns v, rfl, rfl, rfl⟩⟩
  rw [if_neg h9] at h
  by_cases h10 : k = "days"
  · rw [if_pos h10] at h; cases h; subst h10; exact ⟨rfl, Or.inl ⟨rfl, rfl, rfl⟩⟩
  rw [if_neg h10] at h
  by_cases h11 : k = "ca"
  · rw [if_pos h11] at h; cases h; subst h11; exact ⟨rfl, Or.inl ⟨rfl, rfl, rfl⟩⟩
  rw [if_neg h11] at h
  exact absurd h (by simp)

/-- Loop invariant of `parse_cmd_line`: starting from a state whose buffer
renders the entries `es`, a successful pass over `args` leaves the
`certinfo.san` field untouched and the buffer rendering `es` plus the SAN
entries of `args`, with `ns` counting them. -/
theorem parseGo_invariant (args : List (String × String)) (es : List SanEntry)
    (ps ps' : ParseState)
    (hsan : ps.san = joinSan es) (hns : ps.ns = es.length)
    (h : parseGo args ps = some ps') :
    ps'.ci.san = ps.ci.san ∧
    ps'.san = joinSan (es ++ sanEntries args) ∧
    ps'.ns = (es ++ sanEntries args).length := by
  induction args generalizing es ps with
  | nil =>
    rw [parseGo, Option.some.injEq] at h
    subst h
    simp [sanEntries, hsan, hns]
  | cons a rest ih =>
    obtain ⟨k, v⟩ := a
    rw [parseGo] at h
    split at h
    · exact absurd h (by simp)
    rename_i ps2 happ
    obtain ⟨hcisan, hrest⟩ := applyKey_spec ps ps2 k v happ
    rcases hrest with ⟨hk, hs, hn⟩ | ⟨e, hk, hn, hs⟩
    · have hse : sanEntries ((k, v) :: rest) = sanEntries rest := by
        simp [sanEntries, List.filterMap_cons, hk]
      have := ih es ps2 (hs.trans hsan) (hn.trans hns) h
      exact ⟨this.1.trans hcisan, by rw [hse]; exact this.2.1, by rw [hse]; exact this.2.2⟩
    · have hse : sanEntries ((k, v) :: rest) = e :: sanEntries rest := by
        simp [sanEntries, List.filterMap_cons, hk]
      have hsan2 : ps2.san = joinSan (es ++ [e]) := by
        rw [hs, joinSan_append]
        by_cases h0 : es = []
        · subst h0
          simp only [List.length_nil] at hns
          rw [if_pos hns, if_pos rfl]
        · have hns0 : ps.ns ≠ 0 := by
            rw [hns]
            simpa using h0
          rw [if_neg hns0, if_neg h0, hsan]
      have hns2 : ps2.ns = (es ++ [e]).length := by
        simp [hn, hns]
      have := ih (es ++ [e]) ps2 hsan2 hns2 h
      refine ⟨this.1.trans hcisan, ?_, ?_⟩
      · rw [hse]
        rw [List.append_assoc] at this
        simpa using this.2.1
      · rw [hse]
        rw [List.append_assoc] at this
        simpa using this.2.2

/-- C1, counterexample: the claim that the emitted extension set exactly
equals the Profile Resolver template fails for the Server profile — the
emitted certificate carries a Netscape certificate-type extension, which is
outside the spec's Server template. -/
theorem c1_counterexample :
    build_identity ciServer envServer = .ok (serverCert, ["www1.key", "www1.crt"]) ∧
    ExtNid.netscape_cert_type ∈ serverCert.extensions.map Ext.nid ∧
    ExtNid.netscape_cert_type ∉ specServerExtNids := by
  refine ⟨rfl, by decide, by decide⟩

/-- C1 (amended): every emitted certificate's extension list equals a fixed
per-profile template; the template is the spec's table for the CA profiles,
while the leaf profiles prepend `subjectAltName` when a SAN is present,
request the EKU values under the `anyExtendedKeyUsage` NID, and (Server and
WebServer only) additionally carry a Netscape certificate-type extension
with value `server`. -/
theorem c1_extensions_amended (ci : CertInfo) (env : BuildEnv) (cert : Cert)
    (ws : List String) (h : build_identity ci env = .ok (cert, ws)) :
    cert.extensions = amendedTemplate ci.profile ci.san := by
  have hpe : ∀ p san, profileExtensions p san = amendedTemplate p san := by
    intro p san
    cases p <;> rfl
  obtain ⟨ou, hou, hw, ⟨hp, hc⟩ | ⟨hp, ca, hca, hc⟩⟩ :=
    build_identity_ok_cases ci env cert ws h <;>
  · subst hc
    simpa [mkCert] using hpe ci.profile ci.san

/-- C1, witness: the amended template equality at the concrete server
issuance. -/
theorem c1_extensions_amended_witness :
    build_identity ciServer envServer = .ok (serverCert, ["www1.key", "www1.crt"]) ∧
    serverCert.extensions = amendedTemplate ciServer.profile ciServer.san :=
  ⟨rfl, c1_extensions_amended ciServer envServer serverCert ["www1.key", "www1.crt"] rfl⟩

/-- C2: every issued certificate is signed with SHA-256; a root certificate
has its own subject as issuer and verifies against its own public key; any
other certificate has the loaded signing authority's subject as issuer and
verifies against that authority's public key. -/
theorem c2_issuer_signature (ci : CertInfo) (env : BuildEnv) (cert : Cert)
    (ws : List String) (h : build_identity ci env = .ok (cert, ws)) :
    cert.sigAlg = "sha256" ∧
    (ci.profile = .root_ca →
        cert.issuer = cert.subject ∧ verify cert cert.pubkey = true) ∧
    (ci.profile ≠ .root_ca →
        ∃ s, load_ca env.caCrt env.caKey = some s ∧
          cert.issuer = s.cert.subject ∧ verify cert s.cert.pubkey = true) := by
  obtain ⟨ou, hou, hw, ⟨hp, hc⟩ | ⟨hp, ca, hca, hc⟩⟩ :=
    build_identity_ok_cases ci env cert ws h
  · subst hc
    exact ⟨rfl, fun _ => ⟨rfl, by simp [verify, mkCert]⟩, fun hn => absurd hp hn⟩
  · subst hc
    refine ⟨rfl, fun hr => absurd hr hp, fun _ => ⟨ca, hca, rfl, ?_⟩⟩
    have hpk : ca.cert.pubkey = ca.key := load_ca_pubkey _ _ _ hca
    simp [verify, mkCert, hpk]

/-- C2, witness: the issuer/signature property at the concrete root
issuance. -/
theorem c2_issuer_signature_witness :
    build_identity ciRoot envRoot = .ok (rootCert, ["root.key", "root.crt"]) ∧
    (rootCert.sigAlg = "sha256" ∧
     (ciRoot.profile = .root_ca →
         rootCert.issuer = rootCert.subject ∧ verify rootCert rootCert.pubkey = true) ∧
     (ciRoot.profile ≠ .root_ca →
         ∃ s, load_ca envRoot.caCrt envRoot.caKey = some s ∧
           rootCert.issuer = s.cert.subject ∧ verify rootCert s.cert.pubkey = true)) :=
  ⟨rfl, c2_issuer_signature ciRoot envRoot rootCert ["root.key", "root.crt"] rfl⟩

/-- C4, counterexample: issuing a root CA with a non-empty SAN list is not
rejected — `build_identity` succeeds, and the emitted certificate simply has
no `subjectAltName` extension (the SAN is silently ignored; no
`SanNotPermitted` error exists in the code). -/
theorem c4_counterexample :
    ciRootSan.san ≠ "" ∧
    build_identity ciRootSan envRoot = .ok (rootSanCert, ["root2.key", "root2.crt"]) ∧
    ExtNid.subject_alt_name ∉ rootSanCert.extensions.map Ext.nid := by
  refine ⟨by decide, rfl, by decide⟩

/-- C4 (amended): for the CA profiles a non-empty SAN list is silently
ignored rather than rejected — issuance can succeed, and the emitted
certificate never carries a `subjectAltName` extension. -/
theorem c4_san_ignored (ci : CertInfo) (env : BuildEnv) (cert : Cert)
    (ws : List String)
    (hp : ci.profile = .root_ca ∨ ci.profile = .sub_ca)
    (h : build_identity ci env = .ok (cert, ws)) :
    ExtNid.subject_alt_name ∉ cert.extensions.map Ext.nid := by
  obtain ⟨ou, hou, hw, ⟨hq, hc⟩ | ⟨hq, ca, hca, hc⟩⟩ :=
    build_identity_ok_cases ci env cert ws h <;>
  · subst hc
    rcases hp with hp | hp <;> simp [mkCert, profileExtensions, hp]

/-- C4, witness: the SAN-ignored property at the concrete root-with-SAN
issuance. -/
theorem c4_san_ignored_witness :
    (ciRootSan.profile = .root_ca ∨ ciRootSan.profile = .sub_ca) ∧
    build_identity ciRootSan envRoot = .ok (rootSanCert, ["root2.key", "root2.crt"]) ∧
    ExtNid.subject_alt_name ∉ rootSanCert.extensions.map Ext.nid :=
  ⟨Or.inl rfl, rfl,
   c4_san_ignored ciRootSan envRoot rootSanCert ["root2.key", "root2.crt"] (Or.inl rfl) rfl⟩

/-- C5: when an artifact named `cn.crt` or `cn.key` already exists,
`build_identity` fails with the identity-exists error for every request and
every environment — in particular independently of the key generator's
output and of the curve check, so the collision check precedes key
generation, and the error result carries no written files. -/
theorem c5_identity_exists (ci : CertInfo) (env : BuildEnv)
    (h : env.crtExists = true ∨ env.keyExists = true) :
    build_identity ci env = .error .identityAlreadyExists := by
  rcases h with h | h
  · simp [build_identity, h]
  · cases hc : env.crtExists <;> simp [build_identity, hc, h]

/-- C5, witness: the collision failure at a concrete environment where
`root.crt` exists. -/
theorem c5_identity_exists_witness :
    (envExists.crtExists = true ∨ envExists.keyExists = true) ∧
    build_identity ciRoot envExists = .error .identityAlreadyExists :=
  ⟨Or.inl rfl, c5_identity_exists ciRoot envExists (Or.inl rfl)⟩

/-- C3: a successful revocation with no existing CRL yields sequence number 1
and exactly the one new entry; with an existing CRL it increments the
sequence number by exactly 1, appends one entry, leaves the result sorted
ascending by serial, and performs no duplicate check — the multiplicity of
the revoked serial always grows by one, so revoking the same serial twice
yields two entries for it. -/
theorem c3_revocation_ledger (env : RevokeEnv) (cert : Cert) (crl2 : CRL)
    (hc : env.certFile = some (some cert))
    (h : revoke_cert env = (.ok, some crl2)) :
    (env.existingCrl = none →
        crl2.number = 1 ∧
        crl2.entries = [{ serial := bytesToNat cert.serial,
                          revocationDate := env.now, reason := 0 }]) ∧
    (∀ old, env.existingCrl = some old →
        crl2.number = old.number + 1 ∧
        crl2.entries.length = old.entries.length + 1 ∧
        sortedBySerial crl2.entries ∧
        ∀ s, countSerial s crl2.entries =
          countSerial s old.entries +
            (if bytesToNat cert.serial = s then 1 else 0)) := by
  simp only [revoke_cert, hc] at h
  split at h
  · exact absurd h (by simp)
  rename_i ca hca
  split at h
  · rw [Prod.mk.injEq, Option.some.injEq] at h
    obtain ⟨-, hcrl⟩ := h
    subst hcrl
    constructor
    · intro hnone
      refine ⟨?_, ?_⟩ <;> simp [newCrl, crlBase, hnone, sortEntries, insertEntry]
    · intro old hold
      refine ⟨?_, ?_, ?_, ?_⟩
      · simp [newCrl, crlBase, hold]
      · simp [newCrl, crlBase, hold, sortEntries_length]
      · simp only [newCrl, crlBase, hold]
        exact sortEntries_sorted _
      · intro s
        simp only [newCrl, crlBase, hold]
        rw [countSerial_sortEntries]
        simp [countSerial, List.countP_append, List.countP_cons]
  · exact absurd h (by simp)

/-- C3, witness: the ledger transition at the concrete revocation (existing
CRL with number 3 and two entries; the resulting CRL has number 4 and three
sorted entries). -/
theorem c3_revocation_ledger_witness :
    envRevoke.certFile = some (some revCert) ∧
    revoke_cert envRevoke = (.ok, some crlAfter) ∧
    ((envRevoke.existingCrl = none →
        crlAfter.number = 1 ∧
        crlAfter.entries = [{ serial := bytesToNat revCert.serial,
                              revocationDate := envRevoke.now, reason := 0 }]) ∧
     (∀ old, envRevoke.existingCrl = some old →
        crlAfter.number = old.number + 1 ∧
        crlAfter.entries.length = old.entries.length + 1 ∧
        sortedBySerial crlAfter.entries ∧
        ∀ s, countSerial s crlAfter.entries =
          countSerial s old.entries +
            (if bytesToNat revCert.serial = s then 1 else 0))) :=
  ⟨rfl, rfl, c3_revocation_ledger envRevoke revCert crlAfter rfl rfl⟩

/-- C6: when the authority's certificate or private key cannot be loaded
during a revocation, the operation fails with the CA-not-found error and the
CRL file content afterwards is exactly what it was before — the file is
never opened for writing on this path (in the source, the write happens only
after `load_ca` and `X509_CRL_sign` have run). -/
theorem c6_ca_failure_keeps_crl (env : RevokeEnv) (cert : Cert)
    (hc : env.certFile = some (some cert))
    (hca : load_ca env.caCrt env.caKey = none) :
    revoke_cert env = (.caNotFound, env.existingCrl) := by
  simp [revoke_cert, hc, hca]

/-- C6, witness: the no-partial-write property at a concrete environment
whose CA key file is missing. -/
theorem c6_ca_failure_keeps_crl_witness :
    envRevokeNoKey.certFile = some (some revCert) ∧
    load_ca envRevokeNoKey.caCrt envRevokeNoKey.caKey = none ∧
    revoke_cert envRevokeNoKey = (.caNotFound, envRevokeNoKey.existingCrl) :=
  ⟨rfl, rfl, c6_ca_failure_keeps_crl envRevokeNoKey revCert rfl rfl⟩

/-- C7: for any 16 bytes drawn from the random source, the allocated serial
is 16 bytes long, its first two bytes are the fixed product tag `0x2c 0xca`,
and its remaining 14 bytes are exactly the drawn random bytes. -/
theorem c7_serial_tag (randomBytes : List Nat) (h : randomBytes.length = 16) :
    (set_serial128 randomBytes).length = 16 ∧
    (set_serial128 randomBytes).take 2 = [0x2c, 0xca] ∧
    (set_serial128 randomBytes).drop 2 = randomBytes.drop 2 := by
  rcases randomBytes with - | ⟨a, - | ⟨b, rest⟩⟩
  · simp at h
  · simp at h
  · refine ⟨?_, rfl, rfl⟩
    simp only [set_serial128, List.length_cons] at h ⊢
    simpa using h

/-- C7, witness: the serial layout at the concrete random draw. -/
theorem c7_serial_tag_witness :
    demoRandom.length = 16 ∧
    ((set_serial128 demoRandom).length = 16 ∧
     (set_serial128 demoRandom).take 2 = [0x2c, 0xca] ∧
     (set_serial128 demoRandom).drop 2 = demoRandom.drop 2) :=
  ⟨rfl, c7_serial_tag demoRandom rfl⟩

/-- Nine `dns=a` arguments. -/
def dns9 : List (String × String) :=
  List.replicate 9 ("dns", "a")

/-- A 130-character value for a single `dns=` argument. -/
def longVal : String :=
  String.mk (List.replicate 130 'a')

set_option maxRecDepth 8192 in
/-- C8: the claimed caps are not enforced.  Nine `dns=` arguments are all
accepted — the loop's entry counter reaches 9, exceeding `MAX_SAN` = 8 — and
a 130-character value, exceeding `FIELD_SZ` = 128, is accepted verbatim
without truncation.  (In the C source these inputs overflow the fixed
`BIG_FIELD`-byte `san` buffer and `FIELD_SZ`-byte `val` buffer: the code
contradicts its own declared limits.) -/
theorem c8_san_uncapped :
    (sanEntries dns9).length = 9 ∧ MAX_SAN = 8 ∧
    (parseState dns9 initCertinfo).map ParseState.ns = some 9 ∧
    longVal.length = 130 ∧ FIELD_SZ = 128 ∧
    (parseState [("dns", longVal)] initCertinfo).map ParseState.san =
      some ("DNS:" ++ longVal) := by
  refine ⟨by decide, rfl, by decide, by decide, rfl, by decide⟩

/-- C9, counterexample: the entries of `dns=a email=b` are rendered in order,
but the separator written before the email entry is a comma followed by a
newline, not the single comma the claim states. -/
theorem c9_counterexample :
    (parseState [("dns", "a"), ("email", "b")] initCertinfo).map ParseState.san =
      some "DNS:a,\nemail:b" ∧
    sanEntries [("dns", "a"), ("email", "b")] = [.dns "a", .email "b"] ∧
    "DNS:a,\nemail:b" ≠ joinWithComma [.dns "a", .email "b"] := by
  refine ⟨by decide, by decide, by decide⟩

/-- C9 (amended): repeated `email=` and `dns=` arguments accumulate into the
SAN string in the order given, each rendered as `email:<value>` or
`DNS:<value>`; each subsequent `dns` entry is preceded by a single comma,
while each subsequent `email` entry is preceded by a comma plus a newline.
When no SAN argument occurs, `certinfo.san` is left unchanged. -/
theorem c9_san_rendering (args : List (String × String)) (ci0 ci2 : CertInfo)
    (h : parse_cmd_line args ci0 = some ci2) :
    ci2.san = if sanEntries args = [] then ci0.san else joinSan (sanEntries args) := by
  unfold parse_cmd_line at h
  split at h
  · exact absurd h (by simp)
  rename_i ps hps
  obtain ⟨hcisan, hsan, hns⟩ :=
    parseGo_invariant args [] { ci := ci0, san := "", ns := 0 } ps rfl rfl hps
  rw [List.nil_append] at hsan hns
  rw [Option.some.injEq] at h
  subst h
  by_cases hnil : sanEntries args = []
  · rw [if_pos hnil]
    have hns0 : ¬ps.ns > 0 := by
      rw [hns, hnil]
      simp
    rw [if_neg hns0]
    exact hcisan
  · rw [if_neg hnil]
    have hns0 : ps.ns > 0 := by
      rw [hns]
      exact List.length_pos.mpr hnil
    rw [if_pos hns0]
    exact hsan

/-- C9, witness: the amended rendering at the concrete arguments
`dns=a email=b`. -/
theorem c9_san_rendering_witness :
    parse_cmd_line [("dns", "a"), ("email", "b")] initCertinfo =
      some { initCertinfo with san := "DNS:a,\nemail:b" } ∧
    ({ initCertinfo with san := "DNS:a,\nemail:b" } : CertInfo).san =
      if sanEntries [("dns", "a"), ("email", "b")] = [] then initCertinfo.san
      else joinSan (sanEntries [("dns", "a"), ("email", "b")]) :=
  ⟨by decide,
   c9_san_rendering [("dns", "a"), ("email", "b")] initCertinfo
     { initCertinfo with san := "DNS:a,\nemail:b" } (by decide)⟩

/-- C10: when the target certificate file is missing or does not parse,
`revoke_cert` leaves the authority's CRL file exactly as it was — no entry
added, no sequence increment, no rewrite (the missing-file path returns
before touching the CRL; the unparsable path crashes on the NULL dereference
before the CRL is read or written). -/
theorem c10_missing_cert_keeps_crl (env : RevokeEnv)
    (h : env.certFile = none ∨ env.certFile = some none) :
    (revoke_cert env).2 = env.existingCrl ∧
    ((revoke_cert env).1 = .certNotFound ∨ (revoke_cert env).1 = .crash) := by
  rcases h with h | h <;> simp [revoke_cert, h]

/-- C10, witness: the CRL is untouched at a concrete environment whose
target certificate file is missing. -/
theorem c10_missing_cert_keeps_crl_witness :
    (envRevokeNoCert.certFile = none ∨ envRevokeNoCert.certFile = some none) ∧
    ((revoke_cert envRevokeNoCert).2 = envRevokeNoCert.existingCrl ∧
     ((revoke_cert envRevokeNoCert).1 = .certNotFound ∨
      (revoke_cert envRevokeNoCert).1 = .crash)) :=
  ⟨Or.inl rfl, c10_missing_cert_keeps_crl envRevokeNoCert (Or.inl rfl)⟩

end TwoCCA
